import Mathlib

/-!
# Verification of the EV Analytics Dashboard (`home.py`)

A shallow embedding of the Streamlit dashboard `home.py` of the
Electricvehicle_dashobard repository, together with theorems settling the
specification's claims about it.

The script has three layers:
* a memoized CSV loader (`load_data`, guarded by `@st.cache_data`);
* a sidebar radio selecting one of five pages, dispatched by an
  `if`/`elif` chain;
* page bodies that call pandas / seaborn / scikit-learn directly.

Rows are embedded as a structure over the seven columns the script touches.
Numeric columns are embedded as `Int` (the dataset holds integral values);
the clustering pipeline casts them to `ℝ` exactly where scikit-learn would
move to floating point.  Library calls (pandas `value_counts`, scikit-learn
`StandardScaler` / `KMeans`) are modelled by their documented behaviour,
with each model's doc comment naming the call it stands for.
-/

namespace EVDash

/-- One record of `EV_Cleaned.csv`, restricted to the seven columns the
script reads: `Make`, `Model_Year`, `Electric_Range`, `City`, `State`,
`Base_MSRP`, `Electric_Vehicle_Type`. -/
structure Row where
  make : String
  model_Year : Int
  electric_Range : Int
  city : String
  state : String
  base_MSRP : Int
  electric_Vehicle_Type : String
deriving DecidableEq, Repr

/-- The header of the standard `EV_Cleaned.csv` file, in the column order
used by the script's accesses. -/
def stdHeader : List String :=
  ["Make", "Model_Year", "Electric_Range", "City", "State", "Base_MSRP",
   "Electric_Vehicle_Type"]

/-- A loaded CSV file: its header row (the schema actually present in the
file) and its data rows.  A column access `df["X"]` in pandas raises a
`KeyError` when `X` is not in the header. -/
structure Csv where
  header : List String
  rows : List Row
deriving DecidableEq, Repr

/-! ## The memoized loader (`load_data`, home.py lines 21–25)

`pd.read_csv("EV_Cleaned.csv")` under `@st.cache_data`: the first call in a
process reads the file (raising `FileNotFoundError` when it is absent); later
calls return the cached table.  The file system is embedded as
`Option Csv` (`none` = the file `EV_Cleaned.csv` is missing), and the
Streamlit cache as `Option Csv` state threaded through calls. -/

/-- `pd.read_csv` on the embedded file system: the parsed table, or the
`FileNotFoundError` pandas raises when the file is missing. -/
def read_csv (fs : Option Csv) : Except String Csv :=
  match fs with
  | some c => .ok c
  | none => .error "FileNotFoundError: EV_Cleaned.csv"

/-- `load_data` with its `@st.cache_data` memoization: given the cache state,
return the cached table if present, otherwise read the file and fill the
cache.  Returns the call's result together with the new cache state. -/
def load_data (fs : Option Csv) (cache : Option Csv) :
    Except String Csv × Option Csv :=
  match cache with
  | some c => (.ok c, some c)
  | none =>
    match read_csv fs with
    | .ok c => (.ok c, some c)
    | .error e => (.error e, none)

/-! ## EDA chart computations (home.py lines 105–150) -/

/-- Insert `a` into `l` in front of the first element `b` with `le a b`;
the sorting step of an insertion sort. -/
def insertBy (le : α → α → Bool) (a : α) : List α → List α
  | [] => [a]
  | b :: bs => if le a b then a :: b :: bs else b :: insertBy le a bs

/-- Insertion sort by the boolean relation `le`. -/
def sortBy (le : α → α → Bool) : List α → List α
  | [] => []
  | a :: as => insertBy le a (sortBy le as)

/-- `counts before or equal`: the descending-by-count order used by pandas
`value_counts`. -/
def cntGe (a b : String × Nat) : Bool := b.2 ≤ a.2

/-- pandas `Series.value_counts()`: one `(value, frequency)` pair per
distinct value of the column, sorted by frequency in descending order. -/
def value_counts (vals : List String) : List (String × Nat) :=
  sortBy cntGe ((vals.dedup).map (fun v => (v, vals.count v)))

/-- `df["Make"].value_counts().head(15)` (home.py line 106). -/
def top_makes (df : List Row) : List (String × Nat) :=
  (value_counts (df.map Row.make)).take 15

/-- `df["City"].value_counts().head(15)` (home.py line 126). -/
def top_cities (df : List Row) : List (String × Nat) :=
  (value_counts (df.map Row.city)).take 15

/-- `df["State"].value_counts().head(15)` (home.py line 134). -/
def top_states (df : List Row) : List (String × Nat) :=
  (value_counts (df.map Row.state)).take 15

/-- The data fed to `sns.histplot(df["Electric_Range"], ...)`
(home.py line 121): the whole `Electric_Range` column, unfiltered. -/
def electricRangeChart (df : List Row) : List Int :=
  df.map Row.electric_Range

/-- The data fed to `sns.boxplot(x=df["Base_MSRP"], ...)`
(home.py line 141): the whole `Base_MSRP` column, unfiltered. -/
def baseMSRPChart (df : List Row) : List Int :=
  df.map Row.base_MSRP

/-- `df.groupby("Model_Year").size()` (home.py line 113): one
`(year, count)` pair per distinct model year. -/
def year_counts (df : List Row) : List (Int × Nat) :=
  ((df.map Row.model_Year).dedup).map
    (fun y => (y, (df.map Row.model_Year).count y))

/-- `df["Electric_Vehicle_Type"].value_counts()` (home.py line 146). -/
def type_counts (df : List Row) : List (String × Nat) :=
  value_counts (df.map Row.electric_Vehicle_Type)

/-! ## The clustering page (home.py lines 155–191)

The page filters to the rows with positive `Base_MSRP`, standardizes the two
features `Electric_Range` and `Base_MSRP` column-wise with
`StandardScaler().fit_transform`, clusters the standardized points with
`KMeans(n_clusters=3, random_state=42).fit_predict`, stores the labels in a
`Cluster` column of the filtered copy, and renders a scatter plot of the copy
colored by label together with
`clean_df.groupby("Cluster")[["Electric_Range","Base_MSRP"]].mean()`. -/

/-- `clean_df = df[df["Base_MSRP"] > 0].copy()` (home.py line 167):
the rows of the loaded table whose `Base_MSRP` is strictly positive. -/
def cleanDf (df : List Row) : List Row :=
  df.filter (fun r => 0 < r.base_MSRP)

/-- The arithmetic mean of a list of reals (`0` on the empty list, matching
the `0/0 = 0` convention of real division). -/
noncomputable def listMean (xs : List ℝ) : ℝ := xs.sum / xs.length

/-- The population variance of a list of reals, the quantity
`StandardScaler` divides by (after a square root): the mean of the squared
deviations from the mean. -/
noncomputable def popVar (xs : List ℝ) : ℝ :=
  listMean (xs.map (fun x => (x - listMean xs) ^ 2))

/-- The per-column scale of `StandardScaler`: the population standard
deviation, with zero variance replaced by `1` (scikit-learn's
`_handle_zeros_in_scale`, which leaves constant columns unscaled). -/
noncomputable def scalerScale (xs : List ℝ) : ℝ :=
  if popVar xs = 0 then 1 else Real.sqrt (popVar xs)

/-- One column of `StandardScaler().fit_transform`: subtract the column mean
and divide by the column scale. -/
noncomputable def standardize (xs : List ℝ) : List ℝ :=
  xs.map (fun x => (x - listMean xs) / scalerScale xs)

/-- A two-dimensional feature point, as fed to `KMeans`. -/
abbrev Point : Type := ℝ × ℝ

/-- The `Electric_Range` feature column of the filtered rows, as reals. -/
noncomputable def featX (df : List Row) : List ℝ :=
  (cleanDf df).map (fun r => (r.electric_Range : ℝ))

/-- The `Base_MSRP` feature column of the filtered rows, as reals. -/
noncomputable def featY (df : List Row) : List ℝ :=
  (cleanDf df).map (fun r => (r.base_MSRP : ℝ))

/-- `scaled_features = scaler.fit_transform(features)` (home.py line 171):
the two feature columns standardized independently and re-paired into
points. -/
noncomputable def scaledFeatures (df : List Row) : List Point :=
  (standardize (featX df)).zip (standardize (featY df))

/-- Squared Euclidean distance between two points (K-Means compares
distances only, so squares suffice). -/
noncomputable def sqDist (a b : Point) : ℝ :=
  (a.1 - b.1) ^ 2 + (a.2 - b.2) ^ 2

/-- Fold computing the index of the closest center: carries the best
`(index, squared distance)` so far, with ties resolved toward the earlier
index as in scikit-learn's assignment step. -/
noncomputable def nearestAux (p : Point) : List Point → Nat → Nat × ℝ → Nat × ℝ
  | [], _, best => best
  | c :: cs, i, best =>
    nearestAux p cs (i + 1)
      (if sqDist p c < best.2 then (i, sqDist p c) else best)

/-- The label K-Means assigns to `p` given the centers `cs`: the index of
the nearest center (`0` for the degenerate empty list of centers). -/
noncomputable def nearestIdx (cs : List Point) (p : Point) : Nat :=
  match cs with
  | [] => 0
  | c :: cs => (nearestAux p cs 1 (0, sqDist p c)).1

/-- The centroid (coordinate-wise mean) of a list of points. -/
noncomputable def centroid (ps : List Point) : Point :=
  (listMean (ps.map Prod.fst), listMean (ps.map Prod.snd))

/-- The M-step of Lloyd's algorithm: each center moves to the centroid of
the points assigned to it; a center with no assigned points keeps its
position (scikit-learn's empty-cluster relocation is abstracted here). -/
noncomputable def updateCenters (k : Nat) (pts : List Point)
    (labels : List Nat) (old : List Point) : List Point :=
  (List.range k).map (fun j =>
    let members := ((pts.zip labels).filter (fun q => q.2 = j)).map Prod.fst
    if members = [] then old.getD j (0, 0) else centroid members)

/-- One Lloyd iteration: assign every point to its nearest center, then
recompute the centers. -/
noncomputable def lloydStep (k : Nat) (pts : List Point) (cs : List Point) :
    List Point :=
  updateCenters k pts (pts.map (nearestIdx cs)) cs

/-- `iters` Lloyd iterations starting from the centers `cs`. -/
noncomputable def lloyd (k : Nat) (pts : List Point) :
    Nat → List Point → List Point
  | 0, cs => cs
  | n + 1, cs => lloyd k pts n (lloydStep k pts cs)

/-- Deterministic initial centers derived from the resolved seed: `k` data
points picked at seed-dependent positions.  Stands for scikit-learn's
`k-means++` initialization, whose randomness is fully determined by the
resolved random state. -/
def initCenters (k seed : Nat) (pts : List Point) : List Point :=
  (List.range k).map (fun i => pts.getD ((seed + i) % max pts.length 1) (0, 0))

/-- scikit-learn's `check_random_state`: an explicit `random_state` value
fixes the random number generator's seed; `random_state=None` draws the
seed from ambient entropy (the process-level RNG state). -/
def resolveSeed (randomState : Option Nat) (entropy : Nat) : Nat :=
  match randomState with
  | some s => s
  | none => entropy

/-- `KMeans(n_clusters=k, random_state=randomState).fit_predict(pts)`:
resolve the seed, place the initial centers, run Lloyd's algorithm
(`max_iter=300`, the scikit-learn default), and label every point by its
nearest final center.  `entropy` is the ambient RNG state a run would draw
from when `random_state` is `None`. -/
noncomputable def kmeansFitPredict (k : Nat) (randomState : Option Nat)
    (entropy : Nat) (pts : List Point) : List Nat :=
  let seed := resolveSeed randomState entropy
  let cs := lloyd k pts 300 (initCenters k seed pts)
  pts.map (nearestIdx cs)

/-- The per-cluster mean table
`clean_df.groupby("Cluster")[["Electric_Range","Base_MSRP"]].mean()`
(home.py line 190): one `(label, mean Electric_Range, mean Base_MSRP)` row
per distinct label, with labels in ascending order (pandas `groupby` sorts
its keys). -/
noncomputable def clusterTable (xs : List (Row × Nat)) :
    List (Nat × ℝ × ℝ) :=
  (sortBy (fun a b => decide (a ≤ b)) (xs.map Prod.snd).dedup).map
    (fun j =>
      let members := (xs.filter (fun q => q.2 = j)).map Prod.fst
      (j, listMean (members.map (fun r => (r.electric_Range : ℝ))),
       listMean (members.map (fun r => (r.base_MSRP : ℝ)))))

/-- What the clustering page renders: the filtered copy with its `Cluster`
column (also the scatter plot's data, colored by the label), and the
per-cluster mean table. -/
structure ClusterRender where
  clustered : List (Row × Nat)
  table : List (Nat × ℝ × ℝ)

/-- The body of the clustering page (home.py lines 167–191) on the loaded
rows: filter to positive `Base_MSRP`, standardize the two features, run
K-Means with `n_clusters=3` and `random_state=42`, attach the labels as the
copy's `Cluster` column, and build the per-cluster mean table.  `entropy`
is the ambient RNG state, unused because `random_state` is fixed. -/
noncomputable def clusterRun (df : List Row) (entropy : Nat) : ClusterRender :=
  let clean := cleanDf df
  let labels := kmeansFitPredict 3 (some 42) entropy (scaledFeatures df)
  let clustered := clean.zip labels
  { clustered := clustered, table := clusterTable clustered }

/-! ## Page dispatch and the whole-script render (home.py lines 33–216)

The sidebar radio (lines 33–42) offers exactly five page names; the script
body is an `if`/`elif` chain on the selected name with no `else` branch.
Each render reruns the whole script: load the table, dispatch on the page
name, run the one matching branch.  Library validation errors (pandas
`KeyError` on a missing column, scikit-learn `ValueError` on degenerate
input) propagate: no branch contains a `try`/`except`. -/

/-- The five page branches of the `if`/`elif` chain. -/
inductive PageId where
  | overview
  | dataset
  | eda
  | clustering
  | insights
deriving DecidableEq, Repr

/-- The page names offered by `st.sidebar.radio` (home.py lines 33–42), in
order. -/
def pageNames : List String :=
  ["Overview", "Dataset", "Exploratory Data Analysis", "EV Clustering (ML)",
   "Key Insights & Conclusion"]

/-- The list of page branches the `if`/`elif` chain (home.py lines 47–216)
executes for a given selected name: the first branch whose guard matches,
or none at all (the chain has no `else`). -/
def executedBranches (page : String) : List PageId :=
  if page = "Overview" then [.overview]
  else if page = "Dataset" then [.dataset]
  else if page = "Exploratory Data Analysis" then [.eda]
  else if page = "EV Clustering (ML)" then [.clustering]
  else if page = "Key Insights & Conclusion" then [.insights]
  else []

/-- The chart names offered by the EDA page's `st.selectbox`
(home.py lines 92–103). -/
def chartNames : List String :=
  ["Top EV Manufacturers", "EV Adoption by Model Year",
   "Electric Range Distribution", "Top Cities by EV Count",
   "Top States by EV Count", "Base MSRP Distribution",
   "EV Type Distribution"]

/-- The data behind each EDA chart the page can render. -/
inductive ChartOut where
  | topMakes (bars : List (String × Nat))
  | adoptionByYear (pts : List (Int × Nat))
  | rangeHist (vals : List Int)
  | topCities (bars : List (String × Nat))
  | topStates (bars : List (String × Nat))
  | msrpBox (vals : List Int)
  | typeDist (bars : List (String × Nat))
deriving Repr

/-- The EDA page's chart `if`/`elif` chain (home.py lines 105–150): the one
chart matching the selected name, `none` when no guard matches.  Each
branch's column access raises a pandas `KeyError` when the column is absent
from the loaded file's header. -/
def evalChart (c : Csv) (chart : String) : Except String (Option ChartOut) :=
  if chart = "Top EV Manufacturers" then
    if "Make" ∈ c.header then .ok (some (.topMakes (top_makes c.rows)))
    else .error "KeyError: Make"
  else if chart = "EV Adoption by Model Year" then
    if "Model_Year" ∈ c.header then
      .ok (some (.adoptionByYear (year_counts c.rows)))
    else .error "KeyError: Model_Year"
  else if chart = "Electric Range Distribution" then
    if "Electric_Range" ∈ c.header then
      .ok (some (.rangeHist (electricRangeChart c.rows)))
    else .error "KeyError: Electric_Range"
  else if chart = "Top Cities by EV Count" then
    if "City" ∈ c.header then .ok (some (.topCities (top_cities c.rows)))
    else .error "KeyError: City"
  else if chart = "Top States by EV Count" then
    if "State" ∈ c.header then .ok (some (.topStates (top_states c.rows)))
    else .error "KeyError: State"
  else if chart = "Base MSRP Distribution" then
    if "Base_MSRP" ∈ c.header then .ok (some (.msrpBox (baseMSRPChart c.rows)))
    else .error "KeyError: Base_MSRP"
  else if chart = "EV Type Distribution" then
    if "Electric_Vehicle_Type" ∈ c.header then
      .ok (some (.typeDist (type_counts c.rows)))
    else .error "KeyError: Electric_Vehicle_Type"
  else .ok none

/-- The clustering page branch (home.py lines 155–191) on the loaded file:
the two column accesses raise `KeyError` on a missing column;
`StandardScaler.fit_transform` raises `ValueError` on an empty feature
matrix; `KMeans.fit_predict` raises `ValueError` when there are fewer
samples than `n_clusters=3`.  Otherwise the page body runs. -/
noncomputable def clusteringPage (c : Csv) (entropy : Nat) :
    Except String ClusterRender :=
  if "Base_MSRP" ∈ c.header then
    if "Electric_Range" ∈ c.header then
      if cleanDf c.rows = [] then
        .error "ValueError: Found array with 0 sample(s) while a minimum of 1 is required by StandardScaler"
      else if (cleanDf c.rows).length < 3 then
        .error "ValueError: n_samples should be >= n_clusters=3"
      else .ok (clusterRun c.rows entropy)
    else .error "KeyError: Electric_Range"
  else .error "KeyError: Base_MSRP"

/-- What one full script run renders for the selected page. -/
inductive RenderOut where
  | overview (totalRecords totalFeatures uniqueMakes : Nat)
  | datasetPage (preview : List Row) (shape : Nat × Nat)
  | eda (chart : Option ChartOut)
  | clustering (r : ClusterRender)
  | insights
  | sidebarOnly

/-- The page `if`/`elif` chain (home.py lines 47–216): run the branch whose
guard matches the selected page name.  The Overview page's
`df["Make"].nunique()` raises `KeyError` when `Make` is absent; the Dataset
page renders `df.head()` and `df.shape`; the Insights page is static text;
no guard matching renders only the sidebar. -/
noncomputable def renderPage (c : Csv) (page chart : String) (entropy : Nat) :
    Except String RenderOut :=
  if page = "Overview" then
    if "Make" ∈ c.header then
      .ok (.overview c.rows.length c.header.length
        ((c.rows.map Row.make).dedup.length))
    else .error "KeyError: Make"
  else if page = "Dataset" then
    .ok (.datasetPage (c.rows.take 5) (c.rows.length, c.header.length))
  else if page = "Exploratory Data Analysis" then
    (evalChart c chart).map RenderOut.eda
  else if page = "EV Clustering (ML)" then
    (clusteringPage c entropy).map RenderOut.clustering
  else if page = "Key Insights & Conclusion" then .ok .insights
  else .ok .sidebarOnly

/-- One whole script rerun on the loaded table `c`: render the selected
page, and return the table the module-level `df` refers to afterwards (the
script never rebinds or mutates `df`; the clustering page works on
`df[...].copy()`). -/
noncomputable def runApp (c : Csv) (page chart : String) (entropy : Nat) :
    Csv × Except String RenderOut :=
  (c, renderPage c page chart entropy)

/-! ## Concrete fixtures -/

/-- Build a row from its seven column values. -/
def mkRow (mk : String) (yr rng : Int) (ct st : String) (msrp : Int)
    (ty : String) : Row :=
  ⟨mk, yr, rng, ct, st, msrp, ty⟩

/-- The spec's 10-row fixture: `Base_MSRP` values
`[0,0,30000,45000,60000,0,80000,0,95000,0]`, other columns constant. -/
def fixture10 : List Row :=
  ([0, 0, 30000, 45000, 60000, 0, 80000, 0, 95000, 0] : List Int).map
    (fun m => mkRow "TESLA" 2020 100 "Seattle" "WA" m "BEV")

/-- A one-row table whose `Electric_Range` and `Base_MSRP` are both `0`. -/
def zeroRowDf : List Row :=
  [mkRow "NISSAN" 2015 0 "Olympia" "WA" 0 "PHEV"]

/-- A table whose four rows all have positive `Base_MSRP`, with
`Electric_Range` values `[0, 2, 0, 2]` and `Base_MSRP` values
`[1, 3, 1, 3]`. -/
def posDf : List Row :=
  [mkRow "A" 2020 0 "a" "s" 1 "BEV", mkRow "B" 2021 2 "b" "s" 3 "BEV",
   mkRow "C" 2022 0 "c" "s" 1 "PHEV", mkRow "D" 2023 2 "d" "s" 3 "PHEV"]

/-- A small well-formed CSV file with the standard header. -/
def sampleCsv : Csv := ⟨stdHeader, fixture10⟩

/-- A CSV file whose header lacks the `Base_MSRP` column. -/
def noMsrpCsv : Csv := ⟨["Make", "Model_Year", "Electric_Range"], fixture10⟩

/-- A CSV file whose header lacks the `Make` column. -/
def noMakeCsv : Csv := ⟨["Model_Year", "Electric_Range"], fixture10⟩

/-- A standard-header CSV none of whose rows has positive `Base_MSRP`. -/
def allZeroMsrpCsv : Csv := ⟨stdHeader, zeroRowDf⟩

/-- A standard-header CSV with exactly two positive-`Base_MSRP` rows:
fewer samples than `n_clusters=3`. -/
def twoRowCsv : Csv :=
  ⟨stdHeader, [mkRow "A" 2020 10 "a" "s" 100 "BEV",
               mkRow "B" 2021 20 "b" "s" 200 "BEV"]⟩

/-! ## Helper lemmas: insertion sort and `value_counts` -/

theorem length_insertBy (le : α → α → Bool) (a : α) (l : List α) :
    (insertBy le a l).length = l.length + 1 := by
  induction l with
  | nil => rfl
  | cons b bs ih =>
    simp only [insertBy]
    split
    · simp
    · simp [ih]

theorem mem_insertBy {le : α → α → Bool} {a x : α} {l : List α} :
    x ∈ insertBy le a l ↔ x = a ∨ x ∈ l := by
  induction l with
  | nil => simp [insertBy]
  | cons b bs ih =>
    simp only [insertBy]
    split
    · simp [List.mem_cons]
    · simp only [List.mem_cons, ih]
      tauto

theorem length_sortBy (le : α → α → Bool) (l : List α) :
    (sortBy le l).length = l.length := by
  induction l with
  | nil => rfl
  | cons a as ih => simp [sortBy, length_insertBy, ih]

theorem pairwise_insertBy_cntGe {a : String × Nat} {l : List (String × Nat)}
    (h : l.Pairwise (fun x y => y.2 ≤ x.2)) :
    (insertBy cntGe a l).Pairwise (fun x y => y.2 ≤ x.2) := by
  induction l with
  | nil => simp [insertBy]
  | cons b bs ih =>
    rcases List.pairwise_cons.mp h with ⟨hb, hbs⟩
    simp only [insertBy]
    split
    case isTrue hle =>
      have hba : b.2 ≤ a.2 := by simpa [cntGe] using hle
      refine List.pairwise_cons.mpr ⟨?_, h⟩
      intro x hx
      rcases List.mem_cons.mp hx with rfl | hx
      · exact hba
      · exact le_trans (hb x hx) hba
    case isFalse hle =>
      have hab : a.2 ≤ b.2 := by
        have : ¬ b.2 ≤ a.2 := by simpa [cntGe] using hle
        omega
      refine List.pairwise_cons.mpr ⟨?_, ih hbs⟩
      intro x hx
      rcases mem_insertBy.mp hx with rfl | hx
      · exact hab
      · exact hb x hx

theorem pairwise_sortBy_cntGe (l : List (String × Nat)) :
    (sortBy cntGe l).Pairwise (fun x y => y.2 ≤ x.2) := by
  induction l with
  | nil => simp [sortBy]
  | cons a as ih => exact pairwise_insertBy_cntGe ih

theorem length_value_counts (v : List String) :
    (value_counts v).length = v.dedup.length := by
  simp [value_counts, length_sortBy]

theorem pairwise_value_counts (v : List String) :
    (value_counts v).Pairwise (fun x y => y.2 ≤ x.2) :=
  pairwise_sortBy_cntGe _

/-- The shared shape of the three `value_counts().head(15)` charts: the
rendered category count is `min 15 (number of distinct values)` and
frequencies are in descending order. -/
theorem top15_spec (v : List String) :
    ((value_counts v).take 15).length = min 15 v.toFinset.card ∧
    ((value_counts v).take 15).Pairwise (fun x y => y.2 ≤ x.2) := by
  constructor
  · rw [List.length_take, length_value_counts, List.card_toFinset]
  · exact (pairwise_value_counts v).sublist (List.take_sublist _ _)

/-! ## Helper lemmas: `StandardScaler` -/

theorem sum_map_sub (xs : List ℝ) (c : ℝ) :
    (xs.map (fun x => x - c)).sum = xs.sum - xs.length * c := by
  induction xs with
  | nil => simp
  | cons a as ih =>
    simp only [List.map_cons, List.sum_cons, List.length_cons, ih]
    push_cast
    ring

theorem sum_map_div (xs : List ℝ) (f : ℝ → ℝ) (s : ℝ) :
    (xs.map (fun x => f x / s)).sum = (xs.map f).sum / s := by
  induction xs with
  | nil => simp
  | cons a as ih => simp [ih, add_div]

theorem popVar_nil : popVar [] = 0 := by
  simp [popVar, listMean]

theorem ne_nil_of_popVar_ne_zero {xs : List ℝ} (h : popVar xs ≠ 0) :
    xs ≠ [] := by
  intro hx
  exact h (hx ▸ popVar_nil)

theorem sum_sub_mean (xs : List ℝ) (h : xs ≠ []) :
    (xs.map (fun x => x - listMean xs)).sum = 0 := by
  have hn : (xs.length : ℝ) ≠ 0 := by
    simpa using h
  rw [sum_map_sub, listMean]
  field_simp

theorem length_standardize (xs : List ℝ) :
    (standardize xs).length = xs.length := by
  simp [standardize]

/-- The standardized column sums to zero. -/
theorem sum_standardize (xs : List ℝ) (h : xs ≠ []) :
    (standardize xs).sum = 0 := by
  calc (standardize xs).sum
      = (xs.map (fun x => x - listMean xs)).sum / scalerScale xs :=
        sum_map_div xs (fun x => x - listMean xs) (scalerScale xs)
    _ = 0 / scalerScale xs := by rw [sum_sub_mean xs h]
    _ = 0 := zero_div _

/-- `StandardScaler` centers each column: the standardized column has zero
mean. -/
theorem listMean_standardize {xs : List ℝ} (h : xs ≠ []) :
    listMean (standardize xs) = 0 := by
  rw [listMean, sum_standardize xs h, zero_div]

theorem popVar_nonneg (xs : List ℝ) : 0 ≤ popVar xs := by
  apply div_nonneg
  · apply List.sum_nonneg
    intro x hx
    rcases List.mem_map.mp hx with ⟨y, -, rfl⟩
    positivity
  · positivity

/-- `StandardScaler` scales each non-constant column to unit population
variance. -/
theorem popVar_standardize {xs : List ℝ} (h : popVar xs ≠ 0) :
    popVar (standardize xs) = 1 := by
  have hne : xs ≠ [] := ne_nil_of_popVar_ne_zero h
  have hmean : listMean (standardize xs) = 0 := listMean_standardize hne
  have hs2 : scalerScale xs ^ 2 = popVar xs := by
    rw [scalerScale, if_neg h, Real.sq_sqrt (popVar_nonneg xs)]
  have hmap : (standardize xs).map (fun y => y ^ 2) =
      xs.map (fun x => (x - listMean xs) ^ 2 / scalerScale xs ^ 2) := by
    simp only [standardize, List.map_map]
    exact List.map_congr_left (fun x _ => div_pow _ _ 2)
  calc popVar (standardize xs)
      = listMean ((standardize xs).map (fun y => (y - 0) ^ 2)) := by
        rw [popVar, hmean]
    _ = listMean ((standardize xs).map (fun y => y ^ 2)) := by simp
    _ = listMean (xs.map
          (fun x => (x - listMean xs) ^ 2 / scalerScale xs ^ 2)) := by
        rw [hmap]
    _ = ((xs.map (fun x => (x - listMean xs) ^ 2)).sum / scalerScale xs ^ 2) /
          xs.length := by
        rw [listMean,
          sum_map_div xs (fun x => (x - listMean xs) ^ 2) (scalerScale xs ^ 2),
          List.length_map]
    _ = ((xs.map (fun x => (x - listMean xs) ^ 2)).sum / xs.length) /
          scalerScale xs ^ 2 := div_right_comm _ _ _
    _ = popVar xs / scalerScale xs ^ 2 := by
        have hp : popVar xs =
            (xs.map (fun x => (x - listMean xs) ^ 2)).sum / xs.length := by
          simp only [popVar, listMean, List.length_map]
        rw [hp]
    _ = popVar xs / popVar xs := by rw [hs2]
    _ = 1 := div_self h

/-! ## Helper lemmas: the clustering pipeline's shape -/

theorem length_scaledFeatures (df : List Row) :
    (scaledFeatures df).length = (cleanDf df).length := by
  simp [scaledFeatures, length_standardize, featX, featY]

theorem length_kmeansFitPredict (k : Nat) (rs : Option Nat) (e : Nat)
    (pts : List Point) : (kmeansFitPredict k rs e pts).length = pts.length := by
  simp [kmeansFitPredict]

/-- Every filtered row appears in the clustered copy, paired with its
label: the `Cluster` column is attached to the copy of `clean_df`, one
label per filtered row. -/
theorem clustered_map_fst (df : List Row) (e : Nat) :
    (clusterRun df e).clustered.map Prod.fst = cleanDf df := by
  apply List.map_fst_zip
  rw [length_kmeansFitPredict, length_scaledFeatures]

/-! ## The claims -/

/-- C1: the clustering path operates only on rows with positive
`Base_MSRP` — every row of `clean_df` (the input of the
standardize-and-cluster step) satisfies `Base_MSRP > 0` — and on the spec's
10-row fixture with `Base_MSRP` values
`[0,0,30000,45000,60000,0,80000,0,95000,0]` it operates on exactly the 5
rows with positive MSRP. -/
theorem c1_clustering_rows_positive_msrp :
    (∀ (df : List Row) (r : Row), r ∈ cleanDf df → 0 < r.base_MSRP) ∧
    (cleanDf fixture10).length = 5 := by
  refine ⟨?_, by decide⟩
  intro df r hr
  exact of_decide_eq_true (List.mem_filter.mp hr).2

/-- Witness for C1 at a concrete input: the third fixture row (MSRP 30000)
is in `clean_df` of the fixture, so the theorem yields its positivity. -/
theorem c1_witness :
    0 < (mkRow "TESLA" 2020 100 "Seattle" "WA" 30000 "BEV").base_MSRP :=
  c1_clustering_rows_positive_msrp.1 fixture10
    (mkRow "TESLA" 2020 100 "Seattle" "WA" 30000 "BEV") (by decide)

/-- C2: each of the three "Top 15" charts (Top EV Manufacturers, Top Cities
by EV Count, Top States by EV Count) renders `min 15 (number of distinct
values of the grouped column)` categories, sorted in descending order of
frequency. -/
theorem c2_top15_charts (df : List Row) :
    ((top_makes df).length = min 15 (df.map Row.make).toFinset.card ∧
      (top_makes df).Pairwise (fun a b => b.2 ≤ a.2)) ∧
    ((top_cities df).length = min 15 (df.map Row.city).toFinset.card ∧
      (top_cities df).Pairwise (fun a b => b.2 ≤ a.2)) ∧
    ((top_states df).length = min 15 (df.map Row.state).toFinset.card ∧
      (top_states df).Pairwise (fun a b => b.2 ≤ a.2)) :=
  ⟨top15_spec _, top15_spec _, top15_spec _⟩

/-- Counterexample to C3 as stated: on a dataset with one row whose
`Electric_Range` and `Base_MSRP` are both `0`, the histogram and the
boxplot each receive a value that is not strictly positive — the source
applies no `> 0` filter to either chart. -/
theorem c3_counterexample :
    (¬ ∀ v ∈ electricRangeChart zeroRowDf, 0 < v) ∧
    (¬ ∀ v ∈ baseMSRPChart zeroRowDf, 0 < v) := by
  decide

/-- C3 amended: the Electric Range Distribution histogram and the Base MSRP
Distribution boxplot are fed the charted column of every row of the loaded
dataset, with no positivity filter — rows with the charted field equal to
`0` are included. -/
theorem c3_amended_charts_unfiltered (df : List Row) (r : Row) (h : r ∈ df) :
    r.electric_Range ∈ electricRangeChart df ∧
    r.base_MSRP ∈ baseMSRPChart df ∧
    (electricRangeChart df).length = df.length ∧
    (baseMSRPChart df).length = df.length :=
  ⟨List.mem_map_of_mem _ h, List.mem_map_of_mem _ h,
   List.length_map _ _, List.length_map _ _⟩

/-- Witness for the amended C3 at a concrete input: the zero-range,
zero-MSRP row of `zeroRowDf` is fed into both charts. -/
theorem c3_amended_witness :
    (mkRow "NISSAN" 2015 0 "Olympia" "WA" 0 "PHEV").electric_Range ∈
      electricRangeChart zeroRowDf ∧
    (mkRow "NISSAN" 2015 0 "Olympia" "WA" 0 "PHEV").base_MSRP ∈
      baseMSRPChart zeroRowDf ∧
    (electricRangeChart zeroRowDf).length = zeroRowDf.length ∧
    (baseMSRPChart zeroRowDf).length = zeroRowDf.length :=
  c3_amended_charts_unfiltered zeroRowDf
    (mkRow "NISSAN" 2015 0 "Olympia" "WA" 0 "PHEV") (by decide)

/-- C5: with `random_state` fixed at 42, the clustering page is
deterministic — two runs on identical filtered input assign identical
cluster labels to every row (the ambient RNG entropy of the two runs is
never consulted). -/
theorem c5_fixed_seed_deterministic (df : List Row) (e₁ e₂ : Nat) :
    (clusterRun df e₁).clustered.map Prod.snd =
      (clusterRun df e₂).clustered.map Prod.snd ∧
    clusterRun df e₁ = clusterRun df e₂ :=
  ⟨rfl, rfl⟩

/-- C7: no page render mutates the loaded dataset: after any page renders,
the table `df` refers to has the same rows, columns and values as when it
was loaded, and the `Cluster` column exists only on the clustering page's
per-render copy of the filtered rows. -/
theorem c7_dataset_immutable (c : Csv) (page chart : String) (e : Nat) :
    (runApp c page chart e).1 = c ∧
    (runApp c page chart e).1.rows = c.rows ∧
    (runApp c page chart e).1.header = c.header ∧
    (clusterRun c.rows e).clustered.map Prod.fst = cleanDf c.rows :=
  ⟨rfl, rfl, rfl, clustered_map_fst c.rows e⟩

/-- C9: two invocations of the memoized loader within one process yield
tables with identical row counts, identical column counts, and identical
first-row content. -/
theorem c9_memoized_load (fs : Option Csv) (c₁ c₂ : Csv)
    (st₁ st₂ : Option Csv)
    (h₁ : load_data fs none = (.ok c₁, st₁))
    (h₂ : load_data fs st₁ = (.ok c₂, st₂)) :
    c₁.rows.length = c₂.rows.length ∧
    c₁.header.length = c₂.header.length ∧
    c₁.rows.head? = c₂.rows.head? := by
  cases fs with
  | none => simp [load_data, read_csv] at h₁
  | some c =>
    simp only [load_data, read_csv, Prod.mk.injEq, Except.ok.injEq] at h₁
    obtain ⟨rfl, rfl⟩ := h₁
    simp only [load_data, Prod.mk.injEq, Except.ok.injEq] at h₂
    obtain ⟨rfl, -⟩ := h₂
    exact ⟨rfl, rfl, rfl⟩

/-- Witness for C9 at a concrete input: loading `sampleCsv` twice through
the cache. -/
theorem c9_witness :
    sampleCsv.rows.length = sampleCsv.rows.length ∧
    sampleCsv.header.length = sampleCsv.header.length ∧
    sampleCsv.rows.head? = sampleCsv.rows.head? :=
  c9_memoized_load (some sampleCsv) sampleCsv sampleCsv
    (some sampleCsv) (some sampleCsv) rfl rfl

/-- C10: the page `if`/`elif` chain is exclusive and exhaustive over the
five enumerated page names: each name executes exactly the one branch whose
guard equals it, and no other branch's content is rendered. -/
theorem c10_dispatch_exclusive_exhaustive :
    pageNames.map executedBranches =
      [[PageId.overview], [PageId.dataset], [PageId.eda],
       [PageId.clustering], [PageId.insights]] ∧
    pageNames.length = 5 := by
  decide

/-- C4: the clustering page follows exactly the procedure of home.py lines
167–191 on the filtered rows: both feature columns are standardized to zero
mean and unit variance (unit variance provided the column is not constant,
which is the hypothesis `StandardScaler`'s square-root scale needs), the
labels are those of K-Means with `n_clusters = 3` and `random_state = 42`
on the standardized points, every filtered row is assigned a label in the
rendered copy (the scatter plot's data), and the table holds the
per-cluster means of `Electric_Range` and `Base_MSRP`. -/
theorem c4_clustering_procedure (df : List Row) (e : Nat)
    (hx : popVar (featX df) ≠ 0) (hy : popVar (featY df) ≠ 0) :
    (clusterRun df e).clustered =
      (cleanDf df).zip (kmeansFitPredict 3 (some 42) e (scaledFeatures df)) ∧
    listMean (standardize (featX df)) = 0 ∧
    popVar (standardize (featX df)) = 1 ∧
    listMean (standardize (featY df)) = 0 ∧
    popVar (standardize (featY df)) = 1 ∧
    (clusterRun df e).clustered.map Prod.fst = cleanDf df ∧
    (clusterRun df e).table = clusterTable ((clusterRun df e).clustered) :=
  ⟨rfl, listMean_standardize (ne_nil_of_popVar_ne_zero hx),
   popVar_standardize hx,
   listMean_standardize (ne_nil_of_popVar_ne_zero hy),
   popVar_standardize hy, clustered_map_fst df e, rfl⟩

/-- Witness for C4 at a concrete input: on `posDf` both feature columns
have population variance 1, so the hypotheses hold and the procedure's
properties follow. -/
theorem c4_witness :
    (popVar (featX posDf) ≠ 0 ∧ popVar (featY posDf) ≠ 0) ∧
    ((clusterRun posDf 0).clustered =
      (cleanDf posDf).zip
        (kmeansFitPredict 3 (some 42) 0 (scaledFeatures posDf)) ∧
    listMean (standardize (featX posDf)) = 0 ∧
    popVar (standardize (featX posDf)) = 1 ∧
    listMean (standardize (featY posDf)) = 0 ∧
    popVar (standardize (featY posDf)) = 1 ∧
    (clusterRun posDf 0).clustered.map Prod.fst = cleanDf posDf ∧
    (clusterRun posDf 0).table = clusterTable ((clusterRun posDf 0).clustered)) := by
  have hc : cleanDf posDf = posDf := by decide
  have hfx : featX posDf = [0, 2, 0, 2] := by
    rw [featX, hc]
    norm_num [posDf, mkRow]
  have hfy : featY posDf = [1, 3, 1, 3] := by
    rw [featY, hc]
    norm_num [posDf, mkRow]
  have hx : popVar (featX posDf) ≠ 0 := by
    rw [hfx]
    norm_num [popVar, listMean]
  have hy : popVar (featY posDf) ≠ 0 := by
    rw [hfy]
    norm_num [popVar, listMean]
  exact ⟨⟨hx, hy⟩, c4_clustering_procedure posDf 0 hx hy⟩

/-- C8: no operation handles errors — a missing file, a missing column, an
empty post-filter result, and fewer filtered rows than the fixed cluster
count each end the run with a propagated error instead of rendered
output. -/
theorem c8_no_error_handling :
    (load_data none none).1 =
      Except.error "FileNotFoundError: EV_Cleaned.csv" ∧
    (∀ (c : Csv) (chart : String) (e : Nat), "Base_MSRP" ∉ c.header →
      ∃ m, (runApp c "EV Clustering (ML)" chart e).2 = Except.error m) ∧
    (∀ (c : Csv) (chart : String) (e : Nat),
      "Base_MSRP" ∈ c.header → "Electric_Range" ∈ c.header →
      cleanDf c.rows = [] →
      ∃ m, (runApp c "EV Clustering (ML)" chart e).2 = Except.error m) ∧
    (∀ (c : Csv) (chart : String) (e : Nat),
      "Base_MSRP" ∈ c.header → "Electric_Range" ∈ c.header →
      cleanDf c.rows ≠ [] → (cleanDf c.rows).length < 3 →
      ∃ m, (runApp c "EV Clustering (ML)" chart e).2 = Except.error m) ∧
    (∀ (c : Csv) (chart : String) (e : Nat), "Make" ∉ c.header →
      ∃ m, (runApp c "Overview" chart e).2 = Except.error m) := by
  refine ⟨rfl, ?_, ?_, ?_, ?_⟩
  · intro c chart e h
    simp [runApp, renderPage, clusteringPage, h]
    exact ⟨_, rfl⟩
  · intro c chart e h₁ h₂ h₃
    simp [runApp, renderPage, clusteringPage, h₁, h₂, h₃]
    exact ⟨_, rfl⟩
  · intro c chart e h₁ h₂ h₃ h₄
    simp [runApp, renderPage, clusteringPage, h₁, h₂, h₃, h₄]
    exact ⟨_, rfl⟩
  · intro c chart e h
    simp [runApp, renderPage, h]

/-- Witness for C8 at concrete inputs: a header without `Base_MSRP`, a
table with no positive-MSRP row, a table with only two positive-MSRP rows,
and a header without `Make` each produce an error. -/
theorem c8_witness :
    (∃ m, (runApp noMsrpCsv "EV Clustering (ML)" "" 0).2 = Except.error m) ∧
    (∃ m, (runApp allZeroMsrpCsv "EV Clustering (ML)" "" 0).2 =
      Except.error m) ∧
    (∃ m, (runApp twoRowCsv "EV Clustering (ML)" "" 0).2 = Except.error m) ∧
    (∃ m, (runApp noMakeCsv "Overview" "" 0).2 = Except.error m) :=
  ⟨c8_no_error_handling.2.1 noMsrpCsv "" 0 (by decide),
   c8_no_error_handling.2.2.1 allZeroMsrpCsv "" 0 (by decide) (by decide)
     (by decide),
   c8_no_error_handling.2.2.2.1 twoRowCsv "" 0 (by decide) (by decide)
     (by decide) (by decide),
   c8_no_error_handling.2.2.2.2 noMakeCsv "" 0 (by decide)⟩

end EVDash
